import Mathlib

/-!
# MyTinySTL: raw storage allocator and object lifecycle

A shallow embedding of `MyTinySTL/allocator.h`, `MyTinySTL/construct.h` and the
parts of `MyTinySTL/util.h` they rest on (`move`, `forward`, `swap`, `pair`).

* Pointers are byte addresses (`Nat`); `0` is `nullptr`.
* The global `::operator new` / `::operator delete` are wrapped by a counting
  harness (`Heap`): it records the blocks currently held, every size requested
  and every pointer released.  Which address a request yields, or whether it
  fails, is decided by a `Provider`, a parameter of the model.
* Every operation returns an `Outcome`: how the call ended together with the
  world it leaves behind, so the state after a failure can be inspected.
* Undefined behaviour (running a destructor on storage that holds no object,
  placement construction at `nullptr`, releasing a block that is not held) ends
  the call with `Fault.undefined`.
* An argument expression carries its value category and constness (`Arg`);
  arguments are passed by reference, so a construction call also returns the
  argument objects as the constructor of `T` leaves them.
* Objects reached through references that may alias (`swap`) live in a store
  indexed by address; a pair is described by where its two members lie, so
  that pairs of references are covered.
* The lifecycle state of a slot (Uninitialized or Constructed) is a record kept
  by the caller, next to the world; `World.slots` says what the storage holds.
-/

namespace mystl

/-- How a call can end other than by returning. -/
inductive Fault where
  /-- a C++ exception, identified by a code, propagates out of the call -/
  | thrown (code : Nat)
  /-- the call has undefined behaviour -/
  | undefined
  deriving DecidableEq

/-- State of the storage at one address, seen as a slot for one `T`. -/
inductive Slot (α : Type) where
  | uninitialized
  | constructed (v : α)
  deriving DecidableEq

/-- Counting harness around the global allocation functions. -/
structure Heap where
  /-- blocks obtained from `::operator new` and not yet released -/
  live : List Nat
  /-- byte counts passed to `::operator new`, in call order -/
  requests : List Nat
  /-- pointers passed to `::operator delete`, in call order -/
  releases : List Nat
  deriving DecidableEq

/-- The observable state: the heap harness, the typed slots, and the log of
destructor side effects (address and value of each destroyed object, in order). -/
structure World (α : Type) where
  heap : Heap
  slots : Nat → Slot α
  dtorLog : List (Nat × α)

/-- Result of a call: how it ended, and the world afterwards. -/
structure Outcome (β α : Type) where
  out : Except Fault β
  world : World α

/-- The underlying storage provider behind `::operator new(size)`: from the
history recorded by the harness and the requested size it yields the address of
the new block, or the failure it raises. -/
structure Provider where
  pick : Heap → Nat → Except Fault Nat

/-- The provider never hands out the null pointer when it succeeds. -/
def Provider.NonNull (P : Provider) : Prop :=
  ∀ h size p, P.pick h size = .ok p → p ≠ 0

/-- What the operations need to know about the element type `T`: `sizeof(T)`
(at least one byte), `std::is_trivially_destructible<T>`, and the result of the
default constructor `T()` (a value, or the code of the exception it throws). -/
structure TypeDesc (α : Type) where
  sizeOf : Nat
  sizeOf_pos : 0 < sizeOf
  trivialDtor : Bool
  defaultCtor : Except Nat α

/-- Number of blocks currently held from the provider. -/
def World.liveCount {α : Type} (w : World α) : Nat := w.heap.live.length

/-- Number of destructor invocations so far. -/
def World.dtorCount {α : Type} (w : World α) : Nat := w.dtorLog.length

/-- `::operator new(size)`: one request to the provider, recorded by the
harness whether or not it succeeds. -/
def operator_new {α : Type} (P : Provider) (size : Nat) (w : World α) : Outcome Nat α :=
  match P.pick w.heap size with
  | .ok p =>
    ⟨.ok p, { w with heap := { live := p :: w.heap.live,
                               requests := w.heap.requests ++ [size],
                               releases := w.heap.releases } }⟩
  | .error e =>
    ⟨.error e, { w with heap := { live := w.heap.live,
                                  requests := w.heap.requests ++ [size],
                                  releases := w.heap.releases } }⟩

/-- `::operator delete(ptr)`: null is ignored, a held block is released, and
anything else is undefined behaviour.  The call is recorded in every case. -/
def operator_delete {α : Type} (ptr : Nat) (w : World α) : Outcome Unit α :=
  if ptr = 0 then
    ⟨.ok (), { w with heap := { live := w.heap.live,
                                requests := w.heap.requests,
                                releases := w.heap.releases ++ [ptr] } }⟩
  else if ptr ∈ w.heap.live then
    ⟨.ok (), { w with heap := { live := w.heap.live.erase ptr,
                                requests := w.heap.requests,
                                releases := w.heap.releases ++ [ptr] } }⟩
  else
    ⟨.error .undefined, { w with heap := { live := w.heap.live,
                                           requests := w.heap.requests,
                                           releases := w.heap.releases ++ [ptr] } }⟩

/-- `mystl::construct(Ty* ptr)`, construct.h 19-28: `::new ((void*)ptr) Ty()`.
The constructor runs first; the slot holds an object only if it returns. -/
def construct {α : Type} (T : TypeDesc α) (ptr : Nat) (w : World α) : Outcome Unit α :=
  if ptr = 0 then ⟨.error .undefined, w⟩
  else
    match T.defaultCtor with
    | .ok v => ⟨.ok (), { w with slots := Function.update w.slots ptr (.constructed v) }⟩
    | .error e => ⟨.error (.thrown e), w⟩

/-- The pseudo call `pointer->~Ty()`: runs the destructor of the object at
`ptr`, which records its side effect and ends the object. -/
def dtor_call {α : Type} (ptr : Nat) (w : World α) : Outcome Unit α :=
  match w.slots ptr with
  | .constructed v =>
    ⟨.ok (), { w with slots := Function.update w.slots ptr .uninitialized,
                      dtorLog := w.dtorLog ++ [(ptr, v)] }⟩
  | .uninitialized => ⟨.error .undefined, w⟩

/-- `destroy_one`, construct.h 44-54; the tag argument selects the overload:
`true` is `destroy_one(Ty*, std::true_type) {}`, `false` is the overload that
tests the pointer and calls the destructor. -/
def destroy_one {α : Type} (pointer : Nat) (tag : Bool) (w : World α) : Outcome Unit α :=
  match tag with
  | true => ⟨.ok (), w⟩
  | false => if pointer ≠ 0 then dtor_call pointer w else ⟨.ok (), w⟩

/-- `mystl::destroy(Ty* pointer)`, construct.h 66-70. -/
def destroy {α : Type} (T : TypeDesc α) (pointer : Nat) (w : World α) : Outcome Unit α :=
  destroy_one pointer T.trivialDtor w

/-- The loop of `destroy_cat(first, last, std::false_type)`, construct.h 62-63:
`for (; first != last; ++first) destroy(&*first);` over `T*` iterators.  `fuel`
bounds the number of iterations; `none` means the bound was reached. -/
def destroy_loop {α : Type} (T : TypeDesc α) :
    Nat → Nat → Nat → World α → Option (Outcome Unit α)
  | 0, first, last, w => if first = last then some ⟨.ok (), w⟩ else none
  | fuel + 1, first, last, w =>
    if first = last then some ⟨.ok (), w⟩
    else
      let r := destroy T first w
      match r.out with
      | .ok _ => destroy_loop T fuel (first + T.sizeOf) last r.world
      | .error e => some ⟨.error e, r.world⟩

/-- `destroy_cat`, construct.h 56-64; the tag argument selects the overload:
`true` is the empty body, `false` is the loop. -/
def destroy_cat {α : Type} (T : TypeDesc α) (fuel first last : Nat) (tag : Bool)
    (w : World α) : Option (Outcome Unit α) :=
  match tag with
  | true => some ⟨.ok (), w⟩
  | false => destroy_loop T fuel first last w

/-- `mystl::destroy(ForwardIter first, ForwardIter last)`, construct.h 85-90,
at `ForwardIter = T*`. -/
def destroy_range {α : Type} (T : TypeDesc α) (fuel first last : Nat) (w : World α) :
    Option (Outcome Unit α) :=
  destroy_cat T fuel first last T.trivialDtor w

namespace allocator

/-- `allocator<T>::allocate()`, allocator.h 43-49. -/
def allocate {α : Type} (P : Provider) (T : TypeDesc α) (w : World α) : Outcome Nat α :=
  operator_new P T.sizeOf w

/-- `allocator<T>::allocate(size_type n)`, allocator.h 51-57.  `bits` is the
width of `size_type`; the product `n * sizeof(T)` is computed in `size_type`. -/
def allocate_n {α : Type} (P : Provider) (bits : Nat) (T : TypeDesc α) (n : Nat)
    (w : World α) : Outcome Nat α :=
  if n = 0 then ⟨.ok 0, w⟩
  else operator_new P ((n * T.sizeOf) % 2 ^ bits) w

/-- `allocator<T>::deallocate(T* ptr)`, allocator.h 59-65. -/
def deallocate {α : Type} (ptr : Nat) (w : World α) : Outcome Unit α :=
  if ptr = 0 then ⟨.ok (), w⟩
  else operator_delete ptr w

/-- `allocator<T>::deallocate(T* ptr, size_type)`, allocator.h 66-72; the
count parameter is unnamed in the source. -/
def deallocate_n {α : Type} (ptr : Nat) (_n : Nat) (w : World α) : Outcome Unit α :=
  if ptr = 0 then ⟨.ok (), w⟩
  else operator_delete ptr w

/-- `allocator<T>::construct(T* ptr)`, allocator.h 74-78. -/
def construct {α : Type} (T : TypeDesc α) (ptr : Nat) (w : World α) : Outcome Unit α :=
  mystl.construct T ptr w

/-- `allocator<T>::destroy(T* ptr)`, allocator.h 99-103. -/
def destroy {α : Type} (T : TypeDesc α) (ptr : Nat) (w : World α) : Outcome Unit α :=
  mystl.destroy T ptr w

/-- `allocator<T>::destroy(T* first, T* last)`, allocator.h 105-109. -/
def destroy_range {α : Type} (T : TypeDesc α) (fuel first last : Nat) (w : World α) :
    Option (Outcome Unit α) :=
  mystl.destroy_range T fuel first last w

end allocator

/-! ## Value categories, `move` and `forward` (util.h) -/

/-- Value category of an argument expression. -/
inductive Cat where
  | lvalue
  | rvalue
  deriving DecidableEq

/-- An argument expression at a call: the object it denotes, its value
category, and whether its type is const-qualified. -/
structure Arg (β : Type) where
  val : β
  cat : Cat
  isConst : Bool
  deriving DecidableEq

/-- A template argument standing for a parameter type: `U&` or `const U&` when
`isLRef`, otherwise `U` or `const U`. -/
structure TArg where
  isLRef : Bool
  isConst : Bool
  deriving DecidableEq

/-- Deduction of `Args` for a forwarding reference `Args&&`: an lvalue of type
`U` gives `U&`, an rvalue gives `U`; constness is kept. -/
def deduce {β : Type} (e : Arg β) : TArg :=
  ⟨decide (e.cat = Cat.lvalue), e.isConst⟩

/-- `mystl::move(arg)`, util.h 10-40: a cast of the same object to an rvalue
reference. -/
def move {β : Type} (arg : Arg β) : Arg β :=
  { arg with cat := Cat.rvalue }

/-- `mystl::forward<T>(arg)` on an lvalue `arg`, util.h 42-58:
`static_cast<T&&>(arg)`, an lvalue when `T` is an lvalue reference and an
rvalue otherwise. -/
def forward {β : Type} (t : TArg) (arg : β) : Arg β :=
  ⟨arg, if t.isLRef then Cat.lvalue else Cat.rvalue, t.isConst⟩

/-- `mystl::forward<T>(arg)` on an rvalue `arg`, util.h 59-64: rejected at
compile time (`none`) when `T` is an lvalue reference, else the same cast. -/
def forward_rvalue {β : Type} (t : TArg) (arg : β) : Option (Arg β) :=
  if t.isLRef then none else some ⟨arg, Cat.rvalue, t.isConst⟩

/-! ## Construction from arguments (construct.h, allocator.h) -/

/-- The constructors of `T` that take arguments: for the argument expressions
of `Ty(a1, ..., an)`, the value built or the code of the exception thrown, and
the states the argument objects are left in (a moved-from state for an
argument the constructor moves from). -/
structure Ctors (α β : Type) where
  init : List (Arg β) → Except Nat α × List β

/-- The argument objects after a constructor call that reports the states
`rs`: an object bound through a reference to const is not written, an object
the constructor reports nothing about keeps its value. -/
def argsAfter {β : Type} : List (Arg β) → List β → List β
  | [], _ => []
  | e :: es, [] => e.val :: argsAfter es []
  | e :: es, r :: rs => (if e.isConst then e.val else r) :: argsAfter es rs

/-- Result of a construction call whose arguments are passed by reference: the
outcome for the world, and the argument objects after the call. -/
structure ArgOutcome (α β : Type) where
  res : Outcome Unit α
  args : List β

/-- The new-expression `::new ((void*)ptr) Ty(...)` once the constructor has
produced `r`: the slot holds an object only if the constructor returned. -/
def place {α : Type} (ptr : Nat) (r : Except Nat α) (w : World α) : Outcome Unit α :=
  if ptr = 0 then ⟨.error .undefined, w⟩
  else
    match r with
    | .ok v => ⟨.ok (), { w with slots := Function.update w.slots ptr (.constructed v) }⟩
    | .error e => ⟨.error (.thrown e), w⟩

/-- The new-expression `::new ((void*)ptr) Ty(es...)` for a non-empty argument
list. -/
def place_args {α β : Type} (C : Ctors α β) (ptr : Nat) (es : List (Arg β)) (w : World α) :
    ArgOutcome α β :=
  if ptr = 0 then ⟨⟨.error .undefined, w⟩, es.map Arg.val⟩
  else ⟨place ptr (C.init es).1 w, argsAfter es (C.init es).2⟩

/-- `mystl::construct(Ty1* ptr, const Ty2& value)`, construct.h 30-34:
`::new ((void*)ptr) Ty1(value)`, where `value` is a const lvalue. -/
def construct_value {α β : Type} (C : Ctors α β) (ptr : Nat) (value : β) (w : World α) :
    ArgOutcome α β :=
  place_args C ptr [⟨value, Cat.lvalue, true⟩] w

/-- `mystl::construct(Ty* ptr, Args&&... args)`, construct.h 36-40:
`::new ((void*)ptr) Ty(mystl::forward<Args>(args)...)`.  `es` are the argument
expressions at the call; `Args` is deduced from them and each parameter is
forwarded.  With an empty pack the initializer is `Ty()`. -/
def construct_args {α β : Type} (T : TypeDesc α) (C : Ctors α β) (ptr : Nat)
    (es : List (Arg β)) (w : World α) : ArgOutcome α β :=
  match es.map (fun e => forward (deduce e) e.val) with
  | [] => ⟨place ptr T.defaultCtor w, []⟩
  | f :: fs => place_args C ptr (f :: fs) w

/-- Overload resolution for a call `mystl::construct(ptr, es...)`: with no
argument the one-parameter overload; with a single const lvalue the
`(Ty1*, const Ty2&)` overload (same conversion as the variadic one, more
specialized); otherwise the variadic overload (better reference binding, or
the only viable one). -/
def construct_call {α β : Type} (T : TypeDesc α) (C : Ctors α β) (ptr : Nat)
    (es : List (Arg β)) (w : World α) : ArgOutcome α β :=
  match es with
  | [] => ⟨construct T ptr w, []⟩
  | [e] =>
    if e.cat = Cat.lvalue ∧ e.isConst = true then construct_value C ptr e.val w
    else construct_args T C ptr [e] w
  | e :: e2 :: rest => construct_args T C ptr (e :: e2 :: rest) w

namespace allocator

/-- `allocator<T>::construct(T* ptr, const T& value)`, allocator.h 80-84:
`mystl::construct(ptr, value)` with `value` a const lvalue. -/
def construct_copy {α β : Type} (T : TypeDesc α) (C : Ctors α β) (ptr : Nat) (value : β)
    (w : World α) : ArgOutcome α β :=
  construct_call T C ptr [⟨value, Cat.lvalue, true⟩] w

/-- `allocator<T>::construct(T* ptr, T&& value)`, allocator.h 86-90:
`mystl::construct(ptr, mystl::move(value))`; inside the body `value` is a
non-const lvalue. -/
def construct_move {α β : Type} (T : TypeDesc α) (C : Ctors α β) (ptr : Nat) (value : β)
    (w : World α) : ArgOutcome α β :=
  construct_call T C ptr [move ⟨value, Cat.lvalue, false⟩] w

/-- `allocator<T>::construct(T* ptr, Args&&... args)`, allocator.h 92-97:
`mystl::construct(ptr, mystl::forward<Args>(args)...)` for the argument
expressions `es`. -/
def construct_args {α β : Type} (T : TypeDesc α) (C : Ctors α β) (ptr : Nat)
    (es : List (Arg β)) (w : World α) : ArgOutcome α β :=
  construct_call T C ptr (es.map (fun e => forward (deduce e) e.val)) w

end allocator

/-! ## `pair` (util.h) -/

/-- `mystl::pair<Ty1, Ty2>`, util.h 88-96: the two data members. -/
structure pair (α β : Type) where
  first : α
  second : β
  deriving DecidableEq

/-- The forwarding constructor `pair(Other1&& a, Other2&& b)`, util.h 136-147:
`first(mystl::forward<Other1>(a)), second(mystl::forward<Other2>(b))`; each
member takes the value of the object it is initialized from. -/
def pair.ctor {α β : Type} (a : Arg α) (b : Arg β) : pair α β :=
  ⟨(forward (deduce a) a.val).val, (forward (deduce b) b.val).val⟩

/-- `make_pair(Ty1&& first, Ty2&& second)`, util.h 306-311:
`pair<Ty1, Ty2>(mystl::forward<Ty1>(first), mystl::forward<Ty2>(second))`. -/
def make_pair {α β : Type} (first : Arg α) (second : Arg β) : pair α β :=
  pair.ctor (forward (deduce first) first.val) (forward (deduce second) second.val)

/-- `operator==` on pairs, util.h 266-270. -/
def pair.eq {α β : Type} [BEq α] [BEq β] (lhs rhs : pair α β) : Bool :=
  lhs.first == rhs.first && lhs.second == rhs.second

/-- `operator<` on pairs, util.h 271-275. -/
def pair.lt {α β : Type} [BEq α] [BEq β] (lhs rhs : pair α β) : Bool :=
  lhs.first == rhs.first && lhs.second == rhs.second

/-- `operator>` on pairs, util.h 277-281: `rhs < lhs`. -/
def pair.gt {α β : Type} [BEq α] [BEq β] (lhs rhs : pair α β) : Bool :=
  pair.lt rhs lhs

/-- `operator!=` on pairs, util.h 282-286: `!(lhs == rhs)`. -/
def pair.ne {α β : Type} [BEq α] [BEq β] (lhs rhs : pair α β) : Bool :=
  !(pair.eq lhs rhs)

/-- `operator<=` on pairs, util.h 287-291: `!(rhs < lhs)`. -/
def pair.le {α β : Type} [BEq α] [BEq β] (lhs rhs : pair α β) : Bool :=
  !(pair.lt rhs lhs)

/-- `operator>=` on pairs, util.h 293-297: `!(lhs < rhs)`. -/
def pair.ge {α β : Type} [BEq α] [BEq β] (lhs rhs : pair α β) : Bool :=
  !(pair.lt lhs rhs)

/-- The lexicographic order the comparison is meant to be, in the words of the
claim: `lhs.first < rhs.first`, or `lhs.first == rhs.first` and
`lhs.second < rhs.second`. -/
def pair.lexLt {α β : Type} [BEq α] [LT α] [DecidableRel (fun a b : α => a < b)]
    [LT β] [DecidableRel (fun a b : β => a < b)] (lhs rhs : pair α β) : Bool :=
  decide (lhs.first < rhs.first) ||
    (lhs.first == rhs.first && decide (lhs.second < rhs.second))

/-- `mystl::swap(Tp& lhs, Tp& rhs)`, util.h 65-71, on objects held in a store
`m` and named by their addresses, so that the two references may alias.
`residue` is the state a moved-from object is left in.
`auto tmp(mystl::move(lhs)); lhs = mystl::move(rhs); rhs = mystl::move(tmp);` -/
def swap {τ : Type} (residue : τ → τ) (m : Nat → τ) (lhs rhs : Nat) : Nat → τ :=
  let tmp := m lhs
  let m1 := Function.update m lhs (residue (m lhs))
  let m2 := Function.update (Function.update m1 lhs (m1 rhs)) rhs (residue (m1 rhs))
  Function.update m2 rhs tmp

/-- A pair object as it lies in memory: its own address (what `this` and
`&other` compare), and the addresses of the objects its two members denote:
sub-objects of the pair for members held by value, the referents for members
of reference type (as in the `pair<U&, V&>` that `make_pair` returns for lvalue
arguments).  Member objects of both types live in one store. -/
structure PairRef where
  addr : Nat
  first : Nat
  second : Nat
  deriving DecidableEq

/-- The value of the pair `p` in the store `m`, member by member. -/
def PairRef.read {τ : Type} (m : Nat → τ) (p : PairRef) : pair τ τ :=
  ⟨m p.first, m p.second⟩

/-- `pair::swap(pair& other)`, util.h 256-263: the guard compares the addresses
`this` and `&other`; then `mystl::swap(first, other.first)` and
`mystl::swap(second, other.second)` run one after the other on the member
objects. -/
def pair.swap {τ : Type} (residue : τ → τ) (m : Nat → τ) (this other : PairRef) : Nat → τ :=
  if this.addr ≠ other.addr then
    mystl.swap residue (mystl.swap residue m this.first other.first) this.second other.second
  else m

/-- `mystl::swap(pair& lhs, pair& rhs)`, util.h 299-304: `lhs.swap(rhs)`. -/
def swap_pair {τ : Type} (residue : τ → τ) (m : Nat → τ) (lhs rhs : PairRef) : Nat → τ :=
  pair.swap residue m lhs rhs

/-! ## Slot lifecycle: the record held by the caller -/

/-- A provider with room for blocks of up to 1024 bytes: the k-th request is
served at address `4096 + 1024 * k`, larger requests raise exception 1
(`std::bad_alloc`). -/
def bumpProvider : Provider where
  pick h size :=
    if size ≤ 1024 then .ok (4096 + 1024 * h.requests.length) else .error (.thrown 1)

/-- A provider that has run out of memory: every request raises exception 1. -/
def emptyProvider : Provider where
  pick _ _ := .error (.thrown 1)

/-- A 4-byte type with a user-provided destructor whose default value is 7. -/
def trackedT : TypeDesc Nat where
  sizeOf := 4
  sizeOf_pos := by decide
  trivialDtor := false
  defaultCtor := .ok 7

/-- A 4-byte plain numeric type: trivially destructible, default value 0. -/
def plainT : TypeDesc Nat where
  sizeOf := 4
  sizeOf_pos := by decide
  trivialDtor := true
  defaultCtor := .ok 0

/-- An 8-byte type with a user-provided destructor. -/
def wideT : TypeDesc Nat where
  sizeOf := 8
  sizeOf_pos := by decide
  trivialDtor := false
  defaultCtor := .ok 0

/-- The initial world: nothing allocated, no object alive, nothing destroyed. -/
def emptyWorld : World Nat where
  heap := ⟨[], [], []⟩
  slots := fun _ => .uninitialized
  dtorLog := []

/-- A world holding three live objects 10, 20, 30 of a 4-byte type at
addresses 100, 104, 108, and an unrelated object 99 at address 200. -/
def threeWorld : World Nat where
  heap := ⟨[100], [12], []⟩
  slots := fun a =>
    if a = 100 then .constructed 10
    else if a = 104 then .constructed 20
    else if a = 108 then .constructed 30
    else if a = 200 then .constructed 99
    else .uninitialized
  dtorLog := []

/-- An argument type that counts what is done to it: how often an object was
moved from and how often it was copied from. -/
structure Tracked where
  payload : Nat
  moves : Nat
  copies : Nat
  deriving DecidableEq

/-- Constructors of a `Nat`-valued type from `Tracked` arguments: the value is
the payload of the first argument; an rvalue argument is moved from (payload
taken, `moves` incremented), an lvalue argument is copied from (`copies`
incremented). -/
def trackingCtors : Ctors Nat Tracked where
  init es :=
    (match es with
      | [] => .ok 0
      | e :: _ => .ok e.val.payload,
     es.map (fun e =>
       match e.cat with
       | Cat.rvalue => { payload := 0, moves := e.val.moves + 1, copies := e.val.copies }
       | Cat.lvalue => { payload := e.val.payload, moves := e.val.moves,
                         copies := e.val.copies + 1 }))

/-- Constructors of a `Nat`-valued type from `Nat` arguments: the value is the
first argument; an rvalue argument is left holding 0. -/
def natCtors : Ctors Nat Nat where
  init es :=
    (match es with
      | [] => .ok 0
      | e :: _ => .ok e.val,
     es.map (fun e => match e.cat with
       | Cat.rvalue => 0
       | Cat.lvalue => e.val))

/-- Constructors that always throw exception 3 and leave their arguments alone. -/
def throwingCtors : Ctors Nat Nat where
  init es := (.error 3, es.map Arg.val)

/-- A 4-byte type whose default constructor throws exception 3. -/
def throwingT : TypeDesc Nat where
  sizeOf := 4
  sizeOf_pos := by decide
  trivialDtor := false
  defaultCtor := .error 3

/-- A store of `Nat` objects: 1 and 2 at addresses 11 and 12, 3 and 4 at
addresses 21 and 22, the variables `x = 5` at address 1 and `y = 7` at address
2, and 0 elsewhere. -/
def objStore : Nat → Nat :=
  fun a =>
    if a = 11 then 1 else if a = 12 then 2
    else if a = 21 then 3 else if a = 22 then 4
    else if a = 1 then 5 else if a = 2 then 7 else 0

/-- The pair (1, 2) at address 10, holding its members by value at 11 and 12. -/
def pairP : PairRef := ⟨10, 11, 12⟩

/-- The pair (3, 4) at address 20, holding its members by value at 21 and 22. -/
def pairQ : PairRef := ⟨20, 21, 22⟩

/-- The pair of references `make_pair(x, y)`, at address 30. -/
def pairXY : PairRef := ⟨30, 1, 2⟩

/-- The pair of references `make_pair(y, x)`, at address 40. -/
def pairYX : PairRef := ⟨40, 2, 1⟩

/-! ## The global allocation functions -/

theorem operator_new_out {α : Type} (P : Provider) (size : Nat) (w : World α) :
    (operator_new P size w).out = P.pick w.heap size := by
  unfold operator_new
  cases P.pick w.heap size <;> rfl

theorem operator_new_requests {α : Type} (P : Provider) (size : Nat) (w : World α) :
    (operator_new P size w).world.heap.requests = w.heap.requests ++ [size] := by
  unfold operator_new
  cases P.pick w.heap size <;> rfl

theorem operator_new_releases {α : Type} (P : Provider) (size : Nat) (w : World α) :
    (operator_new P size w).world.heap.releases = w.heap.releases := by
  unfold operator_new
  cases P.pick w.heap size <;> rfl

theorem operator_new_live_ok {α : Type} (P : Provider) (size : Nat) (w : World α) (p : Nat)
    (h : P.pick w.heap size = .ok p) :
    (operator_new P size w).world.heap.live = p :: w.heap.live := by
  simp [operator_new, h]

theorem operator_new_live_error {α : Type} (P : Provider) (size : Nat) (w : World α)
    (e : Fault) (h : P.pick w.heap size = .error e) :
    (operator_new P size w).world.heap.live = w.heap.live := by
  simp [operator_new, h]

theorem operator_new_slots {α : Type} (P : Provider) (size : Nat) (w : World α) :
    (operator_new P size w).world.slots = w.slots ∧
    (operator_new P size w).world.dtorLog = w.dtorLog := by
  unfold operator_new
  cases P.pick w.heap size <;> exact ⟨rfl, rfl⟩

theorem bumpProvider_nonNull : bumpProvider.NonNull := by
  intro h size p hp
  simp only [bumpProvider] at hp
  split at hp
  · injection hp with hp
    omega
  · cases hp

/-! ## Forwarding and placement construction -/

theorem forward_deduce {β : Type} (e : Arg β) : forward (deduce e) e.val = e := by
  cases e with
  | mk v c k => cases c <;> simp [forward, deduce]

theorem map_forward_deduce {β : Type} (es : List (Arg β)) :
    es.map (fun e => forward (deduce e) e.val) = es := by
  induction es with
  | nil => rfl
  | cons e es ih => simp [forward_deduce]

theorem construct_eq_place {α : Type} (T : TypeDesc α) (ptr : Nat) (w : World α) :
    construct T ptr w = place ptr T.defaultCtor w := rfl

theorem construct_args_nil {α β : Type} (T : TypeDesc α) (C : Ctors α β) (ptr : Nat)
    (w : World α) : construct_args T C ptr [] w = ⟨place ptr T.defaultCtor w, []⟩ := rfl

theorem construct_args_cons {α β : Type} (T : TypeDesc α) (C : Ctors α β) (ptr : Nat)
    (e : Arg β) (es : List (Arg β)) (w : World α) :
    construct_args T C ptr (e :: es) w = place_args C ptr (e :: es) w := by
  simp [construct_args, forward_deduce]

theorem construct_call_nil {α β : Type} (T : TypeDesc α) (C : Ctors α β) (ptr : Nat)
    (w : World α) : construct_call T C ptr [] w = ⟨place ptr T.defaultCtor w, []⟩ := rfl

theorem construct_call_cons {α β : Type} (T : TypeDesc α) (C : Ctors α β) (ptr : Nat)
    (e : Arg β) (es : List (Arg β)) (w : World α) :
    construct_call T C ptr (e :: es) w = place_args C ptr (e :: es) w := by
  cases es with
  | nil =>
    simp only [construct_call]
    split
    · rename_i h
      cases e with
      | mk v c k =>
        simp only at h
        obtain ⟨hc, hk⟩ := h
        subst hc
        subst hk
        rfl
    · exact construct_args_cons T C ptr e [] w
  | cons e2 rest =>
    simp only [construct_call]
    exact construct_args_cons T C ptr e (e2 :: rest) w

theorem place_error {α : Type} (ptr : Nat) (hp : ptr ≠ 0) (e : Nat) (w : World α) :
    place ptr (.error e) w = ⟨.error (.thrown e), w⟩ := by
  simp [place, hp]

theorem place_ok {α : Type} (ptr : Nat) (hp : ptr ≠ 0) (v : α) (w : World α) :
    place ptr (.ok v) w
      = ⟨.ok (), { w with slots := Function.update w.slots ptr (.constructed v) }⟩ := by
  simp [place, hp]

theorem place_args_res {α β : Type} (C : Ctors α β) (ptr : Nat) (es : List (Arg β))
    (w : World α) : (place_args C ptr es w).res = place ptr (C.init es).1 w := by
  unfold place_args
  split
  · rename_i h
    simp [place, h]
  · rfl

theorem swap_apply {τ : Type} (residue : τ → τ) (m : Nat → τ) (lhs rhs a : Nat) :
    swap residue m lhs rhs a = if a = rhs then m lhs else if a = lhs then m rhs else m a := by
  unfold swap
  by_cases h1 : a = rhs
  · subst h1
    simp
  · by_cases h2 : a = lhs
    · subst h2
      have h3 : rhs ≠ a := fun h => h1 h.symm
      simp [Function.update, h1, h3]
    · simp [Function.update, h1, h2]

/-- When neither first member is the same object as a second member, the two
member swaps of `pair::swap` on distinct pair objects do not interfere. -/
theorem pair_swap_apply {τ : Type} (residue : τ → τ) (m : Nat → τ) (p q : PairRef)
    (hne : p.addr ≠ q.addr) (h1 : p.first ≠ p.second) (h2 : p.first ≠ q.second)
    (h3 : q.first ≠ p.second) (h4 : q.first ≠ q.second) (a : Nat) :
    pair.swap residue m p q a =
      if a = q.first then m p.first
      else if a = p.first then m q.first
      else if a = q.second then m p.second
      else if a = p.second then m q.second
      else m a := by
  simp only [pair.swap, ne_eq, hne, not_false_eq_true, if_true, swap_apply]
  have h1s : p.second ≠ p.first := fun h => h1 h.symm
  have h2s : q.second ≠ p.first := fun h => h2 h.symm
  have h3s : p.second ≠ q.first := fun h => h3 h.symm
  have h4s : q.second ≠ q.first := fun h => h4 h.symm
  by_cases ha : a = q.first
  · subst ha
    simp [h3, h4, h3s, h4s]
  · by_cases hb : a = p.first
    · subst hb
      simp [ha, h1, h2, h1s, h2s]
    · by_cases hc : a = q.second
      · subst hc
        simp [ha, hb, h1s, h2s, h3s, h4s]
      · by_cases hd : a = p.second
        · subst hd
          simp [ha, hb, hc, h1s, h2s, h3s, h4s]
        · simp [ha, hb, hc, hd]

/-! ## The caller's record along construction and destruction -/

/-- C1: for a type that is not trivially destructible and a non-null pointer
(to an uninitialized slot in particular; the earlier state of the slot plays
no part), `allocator<T>::construct(ptr)` followed by
`allocator<T>::destroy(ptr)` runs the destructor on that slot exactly once: the
construction itself runs no destructor, the destruction returns normally,
appends exactly the one event for `ptr` to the destructor log, and the
destruction counter goes up by exactly 1. -/
theorem construct_then_destroy_runs_dtor_once {α : Type} (T : TypeDesc α) (ptr : Nat)
    (w : World α) (hT : T.trivialDtor = false) (hp : ptr ≠ 0)
    (hc : (allocator.construct T ptr w).out = .ok ()) :
    ∃ v, T.defaultCtor = .ok v ∧
      (allocator.construct T ptr w).world.dtorLog = w.dtorLog ∧
      (allocator.construct T ptr w).world.slots ptr = .constructed v ∧
      (allocator.destroy T ptr (allocator.construct T ptr w).world).out = .ok () ∧
      (allocator.destroy T ptr (allocator.construct T ptr w).world).world.dtorLog
        = w.dtorLog ++ [(ptr, v)] ∧
      (allocator.destroy T ptr (allocator.construct T ptr w).world).world.dtorCount
        = w.dtorCount + 1 := by
  cases hd : T.defaultCtor with
  | error e =>
    simp [allocator.construct, construct, hp, hd] at hc
  | ok v =>
    refine ⟨v, rfl, ?_, ?_, ?_, ?_, ?_⟩ <;>
      simp [allocator.construct, allocator.destroy, construct, destroy, destroy_one,
        dtor_call, hp, hd, hT, World.dtorCount]

/-- C1 at a concrete input: the tracked type constructed at address 100 of the
empty world. -/
theorem construct_then_destroy_runs_dtor_once_witness :
    trackedT.trivialDtor = false ∧ (100 : Nat) ≠ 0 ∧
    emptyWorld.slots 100 = .uninitialized ∧
    (allocator.construct trackedT 100 emptyWorld).out = .ok () ∧
    ∃ v, trackedT.defaultCtor = .ok v ∧
      (allocator.construct trackedT 100 emptyWorld).world.dtorLog = emptyWorld.dtorLog ∧
      (allocator.construct trackedT 100 emptyWorld).world.slots 100 = .constructed v ∧
      (allocator.destroy trackedT 100
        (allocator.construct trackedT 100 emptyWorld).world).out = .ok () ∧
      (allocator.destroy trackedT 100
        (allocator.construct trackedT 100 emptyWorld).world).world.dtorLog
        = emptyWorld.dtorLog ++ [(100, v)] ∧
      (allocator.destroy trackedT 100
        (allocator.construct trackedT 100 emptyWorld).world).world.dtorCount
        = emptyWorld.dtorCount + 1 :=
  ⟨rfl, by decide, rfl, rfl,
    construct_then_destroy_runs_dtor_once trackedT 100 emptyWorld rfl (by decide) rfl⟩

/-- C2: for a trivially destructible type, `destroy(ptr)` returns at once with
the world unchanged, for every pointer and every world; after `construct(ptr)`
and `destroy(ptr)` the destructor log is the one before the two calls, so a
count that started at zero still reads zero.  The overload that runs is fixed
by the triviality boolean alone: `destroy` on `T` is `destroy_one` at the tag
`T.trivialDtor`, and two types with the same boolean are destroyed alike at
every pointer and in every world. -/
theorem trivial_destroy_changes_nothing {α : Type} (T : TypeDesc α)
    (hT : T.trivialDtor = true) (ptr : Nat) (w : World α) :
    allocator.destroy T ptr w = ⟨.ok (), w⟩ ∧
    (allocator.destroy T ptr (allocator.construct T ptr w).world).world
      = (allocator.construct T ptr w).world ∧
    (allocator.destroy T ptr (allocator.construct T ptr w).world).world.dtorLog
      = w.dtorLog ∧
    (w.dtorCount = 0 →
      (allocator.destroy T ptr (allocator.construct T ptr w).world).world.dtorCount = 0) ∧
    (∀ (p : Nat) (w1 : World α), destroy T p w1 = destroy_one p T.trivialDtor w1) ∧
    (∀ (U : TypeDesc α), U.trivialDtor = T.trivialDtor →
      ∀ (p : Nat) (w1 : World α), destroy U p w1 = destroy T p w1) := by
  have hlog : (allocator.construct T ptr w).world.dtorLog = w.dtorLog := by
    unfold allocator.construct construct
    split
    · rfl
    · split <;> rfl
  refine ⟨?_, ?_, ?_, ?_, ?_, ?_⟩
  · simp [allocator.destroy, destroy, destroy_one, hT]
  · simp [allocator.destroy, destroy, destroy_one, hT]
  · simp [allocator.destroy, destroy, destroy_one, hT, hlog]
  · intro h0
    simp only [World.dtorCount] at h0 ⊢
    simp [allocator.destroy, destroy, destroy_one, hT, hlog, h0]
  · intro p w1
    rfl
  · intro U hU p w1
    simp [destroy, hU]

/-- C2 at a concrete input: the plain numeric type at address 100 of the
empty world. -/
theorem trivial_destroy_changes_nothing_witness :
    plainT.trivialDtor = true ∧
    (allocator.destroy plainT 100 (allocator.construct plainT 100 emptyWorld).world).world.dtorCount
      = 0 :=
  ⟨rfl, (trivial_destroy_changes_nothing plainT rfl 100 emptyWorld).2.2.2.1 rfl⟩

/-! ## Range destruction -/

/-- C4: for a trivially destructible element type, `destroy(first, last)` is a
complete no-op for every pair of iterators, whatever their distance and even
with no loop iteration allowed: the call returns at once, the world (slots,
destructor log, heap) is unchanged, so no element is visited and no destructor
runs.  `allocator<T>::destroy(first, last)` is the same call. -/
theorem trivial_destroy_range_noop {α : Type} (T : TypeDesc α) (hT : T.trivialDtor = true)
    (fuel first last : Nat) (w : World α) :
    destroy_range T fuel first last w = some ⟨.ok (), w⟩ ∧
    allocator.destroy_range T fuel first last w = some ⟨.ok (), w⟩ ∧
    destroy_range T 0 first last w = some ⟨.ok (), w⟩ := by
  simp [allocator.destroy_range, destroy_range, destroy_cat, hT]

/-- C4 at a concrete input: the plain numeric type over `[100, 112)` and over
the reversed pair `(112, 100)` is covered by the same statement; here the
former, in `threeWorld`. -/
theorem trivial_destroy_range_noop_witness :
    plainT.trivialDtor = true ∧
    destroy_range plainT 0 100 112 threeWorld = some ⟨.ok (), threeWorld⟩ ∧
    allocator.destroy_range plainT 0 100 112 threeWorld = some ⟨.ok (), threeWorld⟩ ∧
    destroy_range plainT 0 100 112 threeWorld = some ⟨.ok (), threeWorld⟩ :=
  ⟨rfl, trivial_destroy_range_noop plainT rfl 0 100 112 threeWorld⟩

/-! ## Allocation and release -/

/-- C5: given a provider that never yields the null pointer when it succeeds,
`allocator<T>::allocate(n)` returns the null pointer if and only if `n == 0`;
and for `n == 0` the call returns null with the world unchanged: no request
reaches the provider, no block is acquired (the live count is unchanged), so
no release is owed. -/
theorem allocate_n_null_iff_zero {α : Type} (P : Provider) (hP : P.NonNull) (bits : Nat)
    (T : TypeDesc α) (n : Nat) (w : World α) :
    ((allocator.allocate_n P bits T n w).out = .ok 0 ↔ n = 0) ∧
    (n = 0 → allocator.allocate_n P bits T n w = ⟨.ok 0, w⟩) ∧
    (n = 0 → (allocator.allocate_n P bits T n w).world.heap.requests = w.heap.requests ∧
      (allocator.allocate_n P bits T n w).world.liveCount = w.liveCount) := by
  refine ⟨⟨?_, ?_⟩, ?_, ?_⟩
  · intro h
    by_contra hn
    simp only [allocator.allocate_n, if_neg hn, operator_new_out] at h
    exact hP _ _ _ h rfl
  · intro hn
    simp [allocator.allocate_n, hn]
  · intro hn
    simp [allocator.allocate_n, hn]
  · intro hn
    simp [allocator.allocate_n, hn]

/-- C5 at a concrete input: the bump provider never yields null, and a request
for three elements returns the non-null block 4096. -/
theorem allocate_n_null_iff_zero_witness :
    bumpProvider.NonNull ∧
    (allocator.allocate_n bumpProvider 64 trackedT 3 emptyWorld).out = .ok 4096 ∧
    (((allocator.allocate_n bumpProvider 64 trackedT 3 emptyWorld).out = .ok 0 ↔ (3 : Nat) = 0) ∧
    ((3 : Nat) = 0 → allocator.allocate_n bumpProvider 64 trackedT 3 emptyWorld
      = ⟨.ok 0, emptyWorld⟩) ∧
    ((3 : Nat) = 0 →
      (allocator.allocate_n bumpProvider 64 trackedT 3 emptyWorld).world.heap.requests
        = emptyWorld.heap.requests ∧
      (allocator.allocate_n bumpProvider 64 trackedT 3 emptyWorld).world.liveCount
        = emptyWorld.liveCount)) :=
  ⟨bumpProvider_nonNull, rfl,
    allocate_n_null_iff_zero bumpProvider bumpProvider_nonNull 64 trackedT 3 emptyWorld⟩

/-- C6, as amended: for every count `n >= 1`, `allocator<T>::allocate(n)` makes
one request, of `(n * sizeof(T)) mod 2^bits` bytes; whenever the product
`n * sizeof(T)` is below `2^bits` that is exactly `n * sizeof(T)` bytes, enough
for `n` contiguous instances of `T`.  `allocate()` requests exactly
`sizeof(T)` bytes. -/
theorem allocate_n_request_size {α : Type} (P : Provider) (bits : Nat) (T : TypeDesc α)
    (n : Nat) (w : World α) (hn : 1 ≤ n) :
    (allocator.allocate_n P bits T n w).world.heap.requests
      = w.heap.requests ++ [(n * T.sizeOf) % 2 ^ bits] ∧
    (n * T.sizeOf < 2 ^ bits →
      (allocator.allocate_n P bits T n w).world.heap.requests
        = w.heap.requests ++ [n * T.sizeOf]) ∧
    (allocator.allocate P T w).world.heap.requests = w.heap.requests ++ [T.sizeOf] := by
  have hn0 : n ≠ 0 := by omega
  refine ⟨?_, ?_, ?_⟩
  · simp only [allocator.allocate_n, if_neg hn0, operator_new_requests]
  · intro hlt
    simp only [allocator.allocate_n, if_neg hn0, operator_new_requests, Nat.mod_eq_of_lt hlt]
  · simp only [allocator.allocate, operator_new_requests]

/-- C6 at a concrete input: three 4-byte elements with a 64-bit `size_type`. -/
theorem allocate_n_request_size_witness :
    (1 : Nat) ≤ 3 ∧
    (allocator.allocate_n bumpProvider 64 trackedT 3 emptyWorld).world.heap.requests
      = emptyWorld.heap.requests ++ [(3 * trackedT.sizeOf) % 2 ^ 64] ∧
    (3 * trackedT.sizeOf < 2 ^ 64 →
      (allocator.allocate_n bumpProvider 64 trackedT 3 emptyWorld).world.heap.requests
        = emptyWorld.heap.requests ++ [3 * trackedT.sizeOf]) ∧
    (allocator.allocate bumpProvider trackedT emptyWorld).world.heap.requests
      = emptyWorld.heap.requests ++ [trackedT.sizeOf] :=
  ⟨by decide, allocate_n_request_size bumpProvider 64 trackedT 3 emptyWorld (by decide)⟩

/-- C6, as stated, fails: with a 64-bit `size_type` and an 8-byte `T`, the
count `n = 2^61` (at least 1, representable in `size_type`) makes
`allocate(n)` request 0 bytes, which is neither the product `n * sizeof(T)`
nor enough to hold even one instance of `T`. -/
theorem allocate_n_request_wraps :
    (1 : Nat) ≤ 2 ^ 61 ∧ (2 : Nat) ^ 61 < 2 ^ 64 ∧
    (allocator.allocate_n bumpProvider 64 wideT (2 ^ 61) emptyWorld).world.heap.requests = [0] ∧
    (2 : Nat) ^ 61 * wideT.sizeOf ≠ 0 ∧
    ¬ (2 ^ 61 * wideT.sizeOf ≤ 0) ∧
    ¬ (wideT.sizeOf ≤ 0) := by
  refine ⟨by norm_num, by norm_num, ?_, ?_, ?_, ?_⟩
  · have h : (2 ^ 61 * wideT.sizeOf) % 2 ^ 64 = 0 := by norm_num [wideT]
    have hn : ¬ ((2 : Nat) ^ 61 = 0) := by norm_num
    simp only [allocator.allocate_n, if_neg hn, operator_new_requests, h]
    rfl
  · norm_num [wideT]
  · norm_num [wideT]
  · norm_num [wideT]

/-- C7: for every count `n`, `allocator<T>::deallocate(nullptr)` and
`allocator<T>::deallocate(nullptr, n)` return normally with the world
unchanged; in particular nothing is passed to `::operator delete` and the set
of held blocks is as before. -/
theorem deallocate_null_noop {α : Type} (n : Nat) (w : World α) :
    allocator.deallocate 0 w = ⟨.ok (), w⟩ ∧
    allocator.deallocate_n 0 n w = ⟨.ok (), w⟩ ∧
    (allocator.deallocate 0 w).world.heap.releases = w.heap.releases ∧
    (allocator.deallocate_n 0 n w).world.heap.releases = w.heap.releases ∧
    (allocator.deallocate 0 w).world.heap.live = w.heap.live ∧
    (allocator.deallocate_n 0 n w).world.heap.live = w.heap.live := by
  simp [allocator.deallocate, allocator.deallocate_n]

/-- C8: for every type, every count `n >= 1` and every world in which the
request succeeds (the provider yielding a block, hence a non-null pointer),
`ptr = allocate(n)` followed at once by `deallocate(ptr, n)` restores the
allocation state: the first call makes exactly one request and acquires
exactly the block `ptr`, the second returns normally and releases exactly that
block, the held blocks are again those held before, the live-allocation count
delta is zero, and slots and destructor log are untouched. -/
theorem allocate_deallocate_restores {α : Type} (P : Provider) (hP : P.NonNull) (bits : Nat)
    (T : TypeDesc α) (n : Nat) (w : World α) (ptr : Nat) (hn : 1 ≤ n)
    (hok : (allocator.allocate_n P bits T n w).out = .ok ptr) :
    (allocator.allocate_n P bits T n w).world.heap.live = ptr :: w.heap.live ∧
    (allocator.allocate_n P bits T n w).world.heap.requests
      = w.heap.requests ++ [(n * T.sizeOf) % 2 ^ bits] ∧
    (allocator.deallocate_n ptr n (allocator.allocate_n P bits T n w).world).out = .ok () ∧
    (allocator.deallocate_n ptr n (allocator.allocate_n P bits T n w).world).world.heap.releases
      = w.heap.releases ++ [ptr] ∧
    (allocator.deallocate_n ptr n (allocator.allocate_n P bits T n w).world).world.heap.live
      = w.heap.live ∧
    (allocator.deallocate_n ptr n (allocator.allocate_n P bits T n w).world).world.liveCount
      = w.liveCount ∧
    (allocator.deallocate_n ptr n (allocator.allocate_n P bits T n w).world).world.slots
      = w.slots ∧
    (allocator.deallocate_n ptr n (allocator.allocate_n P bits T n w).world).world.dtorLog
      = w.dtorLog := by
  have hn0 : n ≠ 0 := by omega
  simp only [allocator.allocate_n, if_neg hn0, operator_new_out] at hok
  have hp : ptr ≠ 0 := hP _ _ _ hok
  have hlive := operator_new_live_ok P ((n * T.sizeOf) % 2 ^ bits) w ptr hok
  have hrel := operator_new_releases P ((n * T.sizeOf) % 2 ^ bits) w
  have hrest := operator_new_slots P ((n * T.sizeOf) % 2 ^ bits) w
  have hmem : ptr ∈ (operator_new P ((n * T.sizeOf) % 2 ^ bits) w).world.heap.live := by
    rw [hlive]
    exact List.mem_cons_self _ _
  refine ⟨?_, ?_, ?_, ?_, ?_, ?_, ?_, ?_⟩
  · simp only [allocator.allocate_n, if_neg hn0, hlive]
  · simp only [allocator.allocate_n, if_neg hn0, operator_new_requests]
  · simp [allocator.allocate_n, hn0, allocator.deallocate_n, operator_delete, hp, hmem]
  · simp [allocator.allocate_n, hn0, allocator.deallocate_n, operator_delete, hp, hmem, hrel]
  · simp [allocator.allocate_n, hn0, allocator.deallocate_n, operator_delete, hp, hmem, hlive]
  · simp [allocator.allocate_n, hn0, allocator.deallocate_n, operator_delete, hp, hmem, hlive,
      World.liveCount]
  · simp [allocator.allocate_n, hn0, allocator.deallocate_n, operator_delete, hp, hmem,
      hrest.1]
  · simp [allocator.allocate_n, hn0, allocator.deallocate_n, operator_delete, hp, hmem,
      hrest.2]

/-- C8 at a concrete input: three tracked elements from the bump provider, in a
world that already holds the block 100. -/
theorem allocate_deallocate_restores_witness :
    bumpProvider.NonNull ∧ (1 : Nat) ≤ 3 ∧
    (allocator.allocate_n bumpProvider 64 trackedT 3 threeWorld).out = .ok 5120 ∧
    (allocator.deallocate_n 5120 3
      (allocator.allocate_n bumpProvider 64 trackedT 3 threeWorld).world).out = .ok () ∧
    (allocator.deallocate_n 5120 3
      (allocator.allocate_n bumpProvider 64 trackedT 3 threeWorld).world).world.heap.live
      = threeWorld.heap.live ∧
    (allocator.deallocate_n 5120 3
      (allocator.allocate_n bumpProvider 64 trackedT 3 threeWorld).world).world.liveCount
      = threeWorld.liveCount :=
  have h := allocate_deallocate_restores bumpProvider bumpProvider_nonNull 64 trackedT 3
    threeWorld 5120 (by decide) rfl
  ⟨bumpProvider_nonNull, by decide, rfl, h.2.2.1, h.2.2.2.2.1, h.2.2.2.2.2.1⟩

/-- C9: the count argument of `deallocate` carries no weight: for every
pointer and all counts `n` and `m`, `deallocate(ptr, n)` and
`deallocate(ptr, m)` have the same outcome and leave the same world, and both
agree with the single-element `deallocate(ptr)`; what is passed to
`::operator delete` is the pointer alone. -/
theorem deallocate_count_irrelevant {α : Type} (ptr n m : Nat) (w : World α) :
    allocator.deallocate_n ptr n w = allocator.deallocate_n ptr m w ∧
    allocator.deallocate_n ptr n w = allocator.deallocate ptr w ∧
    (ptr ≠ 0 → allocator.deallocate_n ptr n w = operator_delete ptr w) := by
  refine ⟨rfl, rfl, ?_⟩
  intro hp
  simp [allocator.deallocate_n, hp]

/-- C9 at a concrete input: releasing the block 100 of `threeWorld` with the
counts 3 and 7. -/
theorem deallocate_count_irrelevant_witness :
    allocator.deallocate_n 100 3 threeWorld = allocator.deallocate_n 100 7 threeWorld ∧
    allocator.deallocate_n 100 3 threeWorld = allocator.deallocate 100 threeWorld ∧
    ((100 : Nat) ≠ 0 → allocator.deallocate_n 100 3 threeWorld = operator_delete 100 threeWorld) ∧
    (allocator.deallocate_n 100 7 threeWorld).world.heap.live = [] :=
  have h := deallocate_count_irrelevant 100 3 7 threeWorld
  ⟨h.1, h.2.1, h.2.2, rfl⟩

/-- C10: for every `n >= 1`, `allocator<T>::allocate(n)` makes exactly one
request to the provider and ends exactly as that request does: it fails if and
only if the request fails, with that same failure, and then holds no new block
(no retry, no fallback).  `allocate()` behaves likewise with its one request of
`sizeof(T)` bytes.  `allocate(0)` never fails. -/
theorem allocate_failure_propagates {α : Type} (P : Provider) (bits : Nat) (T : TypeDesc α)
    (n : Nat) (w : World α) (hn : 1 ≤ n) :
    (allocator.allocate_n P bits T n w).out = P.pick w.heap ((n * T.sizeOf) % 2 ^ bits) ∧
    (∀ e, (allocator.allocate_n P bits T n w).out = .error e ↔
      P.pick w.heap ((n * T.sizeOf) % 2 ^ bits) = .error e) ∧
    (allocator.allocate_n P bits T n w).world.heap.requests
      = w.heap.requests ++ [(n * T.sizeOf) % 2 ^ bits] ∧
    (∀ e, (allocator.allocate_n P bits T n w).out = .error e →
      (allocator.allocate_n P bits T n w).world.heap.live = w.heap.live) ∧
    (allocator.allocate P T w).out = P.pick w.heap T.sizeOf ∧
    (∀ e, (allocator.allocate P T w).out = .error e ↔ P.pick w.heap T.sizeOf = .error e) ∧
    (allocator.allocate P T w).world.heap.requests = w.heap.requests ++ [T.sizeOf] ∧
    (∀ e, (allocator.allocate P T w).out = .error e →
      (allocator.allocate P T w).world.heap.live = w.heap.live) ∧
    (∀ e, (allocator.allocate_n P bits T 0 w).out ≠ .error e) := by
  have hn0 : n ≠ 0 := by omega
  have h1 : allocator.allocate_n P bits T n w
      = operator_new P ((n * T.sizeOf) % 2 ^ bits) w := by
    simp [allocator.allocate_n, hn0]
  refine ⟨?_, ?_, ?_, ?_, ?_, ?_, ?_, ?_, ?_⟩
  · rw [h1, operator_new_out]
  · intro e
    rw [h1, operator_new_out]
  · rw [h1, operator_new_requests]
  · intro e he
    rw [h1] at he ⊢
    rw [operator_new_out] at he
    exact operator_new_live_error P _ w e he
  · simp only [allocator.allocate, operator_new_out]
  · intro e
    simp only [allocator.allocate, operator_new_out]
  · simp only [allocator.allocate, operator_new_requests]
  · intro e he
    simp only [allocator.allocate, operator_new_out] at he ⊢
    exact operator_new_live_error P _ w e he
  · intro e
    simp [allocator.allocate_n]

/-- C10 at a concrete input: the exhausted provider raises exception 1 and
`allocate(3)` ends with that same exception after its one request of 12
bytes. -/
theorem allocate_failure_propagates_witness :
    (1 : Nat) ≤ 3 ∧
    emptyProvider.pick emptyWorld.heap 12 = .error (.thrown 1) ∧
    (allocator.allocate_n emptyProvider 64 trackedT 3 emptyWorld).out = .error (.thrown 1) ∧
    (allocator.allocate_n emptyProvider 64 trackedT 3 emptyWorld).world.heap.requests
      = emptyWorld.heap.requests ++ [(3 * trackedT.sizeOf) % 2 ^ 64] ∧
    (allocator.allocate_n emptyProvider 64 trackedT 3 emptyWorld).world.heap.live
      = emptyWorld.heap.live :=
  have h := allocate_failure_propagates emptyProvider 64 trackedT 3 emptyWorld (by decide)
  ⟨by decide, rfl, (h.2.1 (.thrown 1)).2 rfl, h.2.2.1, h.2.2.2.1 (.thrown 1) ((h.2.1 (.thrown 1)).2 rfl)⟩

/-! ## Construction forms -/

/-- C11: the three convenience forms of `allocator<T>::construct` are
specializations of the variadic form.  `construct(ptr)` ends as the variadic
form called with no argument, leaving a default-constructed `T` in the slot;
`construct(ptr, const T& v)` ends as the variadic form called with `v` as a
const lvalue, leaving a copy of `v` in the slot and `v` itself unchanged (and
as the variadic form called with `v` as a non-const lvalue whenever the
constructor of `T` makes no difference between the two); `construct(ptr, T&& v)`
ends as the variadic form called with `v` as an rvalue, leaving a `T`
move-constructed from `v` in the slot. -/
theorem construct_forms_specialize_variadic {α β : Type} (T : TypeDesc α) (C : Ctors α β)
    (ptr : Nat) (v : β) (w : World α) :
    allocator.construct T ptr w = (allocator.construct_args T C ptr [] w).res ∧
    allocator.construct T ptr w = place ptr T.defaultCtor w ∧
    allocator.construct_copy T C ptr v w
      = allocator.construct_args T C ptr [⟨v, Cat.lvalue, true⟩] w ∧
    (allocator.construct_copy T C ptr v w).res
      = place ptr (C.init [⟨v, Cat.lvalue, true⟩]).1 w ∧
    (allocator.construct_copy T C ptr v w).args = [v] ∧
    ((C.init [⟨v, Cat.lvalue, false⟩]).1 = (C.init [⟨v, Cat.lvalue, true⟩]).1 →
      (allocator.construct_copy T C ptr v w).res
        = (allocator.construct_args T C ptr [⟨v, Cat.lvalue, false⟩] w).res) ∧
    allocator.construct_move T C ptr v w
      = allocator.construct_args T C ptr [⟨v, Cat.rvalue, false⟩] w ∧
    (allocator.construct_move T C ptr v w).res
      = place ptr (C.init [⟨v, Cat.rvalue, false⟩]).1 w ∧
    (ptr ≠ 0 → ∀ d, T.defaultCtor = .ok d →
      (allocator.construct T ptr w).world.slots ptr = .constructed d) ∧
    (ptr ≠ 0 → ∀ u, (C.init [⟨v, Cat.lvalue, true⟩]).1 = .ok u →
      (allocator.construct_copy T C ptr v w).res.world.slots ptr = .constructed u) ∧
    (ptr ≠ 0 → ∀ u, (C.init [⟨v, Cat.rvalue, false⟩]).1 = .ok u →
      (allocator.construct_move T C ptr v w).res.world.slots ptr = .constructed u) := by
  have hcopy : allocator.construct_copy T C ptr v w
      = place_args C ptr [⟨v, Cat.lvalue, true⟩] w := by
    simp only [allocator.construct_copy, construct_call_cons]
  have hmove : allocator.construct_move T C ptr v w
      = place_args C ptr [⟨v, Cat.rvalue, false⟩] w := by
    simp only [allocator.construct_move, move, construct_call_cons]
  have hargs : ∀ e : Arg β, allocator.construct_args T C ptr [e] w = place_args C ptr [e] w := by
    intro e
    simp only [allocator.construct_args, map_forward_deduce, construct_call_cons]
  refine ⟨rfl, rfl, ?_, ?_, ?_, ?_, ?_, ?_, ?_, ?_, ?_⟩
  · rw [hcopy, hargs]
  · rw [hcopy, place_args_res]
  · rw [hcopy]
    unfold place_args
    split
    · rfl
    · cases h : (C.init [⟨v, Cat.lvalue, true⟩]).2 <;> simp [argsAfter]
  · intro h
    rw [hcopy, hargs, place_args_res, place_args_res, h]
  · rw [hmove, hargs]
  · rw [hmove, place_args_res]
  · intro hp d hd
    simp [allocator.construct, construct_eq_place, hd, place_ok ptr hp]
  · intro hp u hu
    simp [hcopy, place_args_res, hu, place_ok ptr hp]
  · intro hp u hu
    simp [hmove, place_args_res, hu, place_ok ptr hp]

/-- C11 at a concrete input: the tracked type with `Nat` arguments, the value
5 and address 100 of the empty world. -/
theorem construct_forms_specialize_variadic_witness :
    (natCtors.init [⟨5, Cat.lvalue, false⟩]).1 = (natCtors.init [⟨5, Cat.lvalue, true⟩]).1 ∧
    (100 : Nat) ≠ 0 ∧ trackedT.defaultCtor = .ok 7 ∧
    (natCtors.init [⟨5, Cat.lvalue, true⟩]).1 = .ok 5 ∧
    (natCtors.init [⟨5, Cat.rvalue, false⟩]).1 = .ok 5 ∧
    (allocator.construct_copy trackedT natCtors 100 5 emptyWorld).res
      = (allocator.construct_args trackedT natCtors 100 [⟨5, Cat.lvalue, false⟩] emptyWorld).res ∧
    (allocator.construct trackedT 100 emptyWorld).world.slots 100 = .constructed 7 ∧
    (allocator.construct_copy trackedT natCtors 100 5 emptyWorld).res.world.slots 100
      = .constructed 5 ∧
    (allocator.construct_copy trackedT natCtors 100 5 emptyWorld).args = [5] ∧
    (allocator.construct_move trackedT natCtors 100 5 emptyWorld).res.world.slots 100
      = .constructed 5 :=
  have h := construct_forms_specialize_variadic trackedT natCtors 100 5 emptyWorld
  ⟨rfl, by decide, rfl, rfl, rfl, h.2.2.2.2.2.1 rfl,
    h.2.2.2.2.2.2.2.2.1 (by decide) 7 rfl,
    h.2.2.2.2.2.2.2.2.2.1 (by decide) 5 rfl,
    h.2.2.2.2.1,
    h.2.2.2.2.2.2.2.2.2.2 (by decide) 5 rfl⟩

/-- C12: value categories are preserved through construction.  An argument
given to `allocator<T>::construct(ptr, T&& v)` reaches the constructor of `T`
as a non-const rvalue; every argument list given to the variadic
`allocator<T>::construct(ptr, args...)` (and to `mystl::construct`) reaches the
constructor with each argument in the category and constness it was offered
in, and the argument objects are touched by that one constructor call only.
For the counting argument type: an rvalue argument ends moved from exactly
once and copied zero times, through the variadic form and through the
`T&&` form; an lvalue argument ends with zero moves. -/
theorem construct_preserves_value_category {α β : Type} (T : TypeDesc α) (C : Ctors α β)
    (ptr : Nat) (w : World α) :
    (∀ v, allocator.construct_move T C ptr v w
      = place_args C ptr [⟨v, Cat.rvalue, false⟩] w) ∧
    (∀ e es, allocator.construct_args T C ptr (e :: es) w = place_args C ptr (e :: es) w) ∧
    (∀ e es, construct_args T C ptr (e :: es) w = place_args C ptr (e :: es) w) ∧
    (∀ e : Arg β, forward (deduce e) e.val = e) ∧
    (∀ e : Arg β, (move e).cat = Cat.rvalue ∧ (move e).val = e.val ∧
      (move e).isConst = e.isConst) ∧
    (allocator.construct_args trackedT trackingCtors 100
      [⟨⟨5, 0, 0⟩, Cat.rvalue, false⟩] emptyWorld).args = [⟨0, 1, 0⟩] ∧
    (allocator.construct_move trackedT trackingCtors 100 ⟨5, 0, 0⟩ emptyWorld).args
      = [⟨0, 1, 0⟩] ∧
    (allocator.construct_move trackedT trackingCtors 100 ⟨5, 0, 0⟩ emptyWorld).res.world.slots 100
      = .constructed 5 ∧
    (allocator.construct_args trackedT trackingCtors 100
      [⟨⟨5, 0, 0⟩, Cat.lvalue, false⟩] emptyWorld).args = [⟨5, 0, 1⟩] := by
  refine ⟨?_, ?_, ?_, forward_deduce, fun e => ⟨rfl, rfl, rfl⟩, rfl, rfl, rfl, rfl⟩
  · intro v
    simp only [allocator.construct_move, move, construct_call_cons]
  · intro e es
    simp only [allocator.construct_args, map_forward_deduce, construct_call_cons]
  · intro e es
    exact construct_args_cons T C ptr e es w

/-- C13: construction is atomic on failure.  For a non-null `ptr`, if the
constructor selected by a construct form throws `e`, that form ends with the
exception `e` and leaves the world exactly as it was: the slot at `ptr` (still
uninitialized if it was), every other slot, the destructor log and the held
blocks.  This holds for `mystl::construct` in its three forms and for the four
forms of `allocator<T>::construct`. -/
theorem construct_failure_atomic {α β : Type} (T : TypeDesc α) (C : Ctors α β) (ptr : Nat)
    (w : World α) (e : Nat) (hp : ptr ≠ 0) :
    (T.defaultCtor = .error e →
      construct T ptr w = ⟨.error (.thrown e), w⟩ ∧
      allocator.construct T ptr w = ⟨.error (.thrown e), w⟩ ∧
      (construct_args T C ptr [] w).res = ⟨.error (.thrown e), w⟩ ∧
      (allocator.construct_args T C ptr [] w).res = ⟨.error (.thrown e), w⟩) ∧
    (∀ v, (C.init [⟨v, Cat.lvalue, true⟩]).1 = .error e →
      (construct_value C ptr v w).res = ⟨.error (.thrown e), w⟩ ∧
      (allocator.construct_copy T C ptr v w).res = ⟨.error (.thrown e), w⟩) ∧
    (∀ v, (C.init [⟨v, Cat.rvalue, false⟩]).1 = .error e →
      (allocator.construct_move T C ptr v w).res = ⟨.error (.thrown e), w⟩) ∧
    (∀ a es, (C.init (a :: es)).1 = .error e →
      (construct_args T C ptr (a :: es) w).res = ⟨.error (.thrown e), w⟩ ∧
      (allocator.construct_args T C ptr (a :: es) w).res = ⟨.error (.thrown e), w⟩) ∧
    (w.slots ptr = .uninitialized → T.defaultCtor = .error e →
      (allocator.construct T ptr w).world.slots ptr = .uninitialized) := by
  refine ⟨?_, ?_, ?_, ?_, ?_⟩
  · intro h
    have h1 : construct T ptr w = ⟨.error (.thrown e), w⟩ := by
      rw [construct_eq_place, h, place_error ptr hp]
    refine ⟨h1, h1, ?_, ?_⟩
    · rw [construct_args_nil, h, place_error ptr hp]
    · simp only [allocator.construct_args, List.map_nil, construct_call_nil, h,
        place_error ptr hp]
  · intro v h
    refine ⟨?_, ?_⟩
    · simp only [construct_value, place_args_res, h, place_error ptr hp]
    · simp only [allocator.construct_copy, construct_call_cons, place_args_res, h,
        place_error ptr hp]
  · intro v h
    simp only [allocator.construct_move, move, construct_call_cons, place_args_res, h,
      place_error ptr hp]
  · intro a es h
    refine ⟨?_, ?_⟩
    · simp only [construct_args_cons, place_args_res, h, place_error ptr hp]
    · simp only [allocator.construct_args, map_forward_deduce, construct_call_cons,
        place_args_res, h, place_error ptr hp]
  · intro hs h
    simp only [allocator.construct, construct_eq_place, h, place_error ptr hp, hs]

/-- C13 at a concrete input: the throwing type and throwing constructors at
address 100 of the empty world, exception 3. -/
theorem construct_failure_atomic_witness :
    (100 : Nat) ≠ 0 ∧ throwingT.defaultCtor = .error 3 ∧
    (throwingCtors.init [⟨5, Cat.lvalue, true⟩]).1 = .error 3 ∧
    (throwingCtors.init [⟨5, Cat.rvalue, false⟩]).1 = .error 3 ∧
    emptyWorld.slots 100 = .uninitialized ∧
    allocator.construct throwingT 100 emptyWorld = ⟨.error (.thrown 3), emptyWorld⟩ ∧
    (allocator.construct_copy throwingT throwingCtors 100 5 emptyWorld).res
      = ⟨.error (.thrown 3), emptyWorld⟩ ∧
    (allocator.construct_move throwingT throwingCtors 100 5 emptyWorld).res
      = ⟨.error (.thrown 3), emptyWorld⟩ ∧
    (allocator.construct_args throwingT throwingCtors 100
      [⟨5, Cat.rvalue, false⟩, ⟨6, Cat.lvalue, false⟩] emptyWorld).res
      = ⟨.error (.thrown 3), emptyWorld⟩ ∧
    (allocator.construct throwingT 100 emptyWorld).world.slots 100 = .uninitialized :=
  have h := construct_failure_atomic throwingT throwingCtors 100 emptyWorld 3 (by decide)
  ⟨by decide, rfl, rfl, rfl, rfl, (h.1 rfl).2.1, (h.2.1 5 rfl).2, h.2.2.1 5 rfl,
    (h.2.2.2.1 ⟨5, Cat.rvalue, false⟩ [⟨6, Cat.lvalue, false⟩] rfl).2, h.2.2.2.2 rfl rfl⟩

/-- C14: destroying through a null pointer is a no-op for every type,
trivially destructible or not: `destroy(nullptr)` returns normally, runs no
destructor and leaves the world unchanged, in `mystl::destroy`, in
`allocator<T>::destroy` and in either overload of `destroy_one`. -/
theorem destroy_null_noop {α : Type} (T : TypeDesc α) (w : World α) :
    destroy T 0 w = ⟨.ok (), w⟩ ∧
    allocator.destroy T 0 w = ⟨.ok (), w⟩ ∧
    destroy_one 0 true w = ⟨.ok (), w⟩ ∧
    destroy_one 0 false w = ⟨.ok (), w⟩ ∧
    (destroy T 0 w).world.dtorLog = w.dtorLog := by
  have h : ∀ tag : Bool, destroy_one 0 tag w = ⟨.ok (), w⟩ := by
    intro tag
    cases tag <;> simp [destroy_one]
  exact ⟨h _, h _, h _, h _, by simp [destroy, h]⟩

/-! ## Slot states and the frame of the lifecycle operations -/

/-- C18: `operator<` on pairs as written in util.h 271-275 is not the
lexicographic order: its body is that of `operator==`, so it returns exactly
what `operator==` returns.  The pair (1, 2) is less than itself under it, while
(1, 2) is not less than (1, 3) and (1, 2) is not less than (2, 0); the
lexicographic order says the opposite in all three cases.  The operators
derived from it inherit the defect: `(1, 2) > (1, 2)` holds and
`(1, 2) <= (1, 2)` does not. -/
theorem pair_lt_is_equality :
    (∀ (lhs rhs : pair Nat Nat), pair.lt lhs rhs = pair.eq lhs rhs) ∧
    pair.lt (⟨1, 2⟩ : pair Nat Nat) ⟨1, 2⟩ = true ∧
    pair.lexLt (⟨1, 2⟩ : pair Nat Nat) ⟨1, 2⟩ = false ∧
    pair.lt (⟨1, 2⟩ : pair Nat Nat) ⟨1, 3⟩ = false ∧
    pair.lexLt (⟨1, 2⟩ : pair Nat Nat) ⟨1, 3⟩ = true ∧
    pair.lt (⟨1, 2⟩ : pair Nat Nat) ⟨2, 0⟩ = false ∧
    pair.lexLt (⟨1, 2⟩ : pair Nat Nat) ⟨2, 0⟩ = true ∧
    pair.gt (⟨1, 2⟩ : pair Nat Nat) ⟨1, 2⟩ = true ∧
    pair.le (⟨1, 2⟩ : pair Nat Nat) ⟨1, 2⟩ = false ∧
    pair.ge (⟨1, 2⟩ : pair Nat Nat) ⟨1, 2⟩ = false :=
  ⟨fun _ _ => rfl, by decide, by decide, by decide, by decide, by decide, by decide,
    by decide, by decide, by decide⟩

/-- C19: `make_pair(a, b)` builds a pair from its two arguments: for all
objects `a` and `b`, offered as lvalues or rvalues, const or not, the pair
returned has `first` equal to the value of `a` and `second` equal to the value
of `b`. -/
theorem make_pair_members {α β : Type} (a : Arg α) (b : Arg β) :
    (make_pair a b).first = a.val ∧ (make_pair a b).second = b.val ∧
    make_pair a b = ⟨a.val, b.val⟩ := by
  simp [make_pair, pair.ctor, forward]

/-- C20, as stated, fails: for the pairs of references `p = make_pair(x, y)`
and `q = make_pair(y, x)` with `x = 5` and `y = 7`, `p.swap(q)` swaps `x` with
`y` and then `y` with `x`, so the store is as before: `p` still reads (5, 7),
which is the old `p` and not the old `q = (7, 5)`. -/
theorem pair_swap_aliased_members :
    pairXY.addr ≠ pairYX.addr ∧
    PairRef.read objStore pairXY = ⟨5, 7⟩ ∧
    PairRef.read objStore pairYX = ⟨7, 5⟩ ∧
    PairRef.read (pair.swap (fun _ => 0) objStore pairXY pairYX) pairXY = ⟨5, 7⟩ ∧
    PairRef.read (pair.swap (fun _ => 0) objStore pairXY pairYX) pairXY
      ≠ PairRef.read objStore pairYX ∧
    PairRef.read (swap_pair (fun _ => 0) objStore pairXY pairYX) pairXY
      ≠ PairRef.read objStore pairYX := by
  refine ⟨by decide, rfl, rfl, rfl, ?_, ?_⟩
  · have h : PairRef.read (pair.swap (fun _ => 0) objStore pairXY pairYX) pairXY
        = (⟨5, 7⟩ : pair Nat Nat) := rfl
    rw [h]
    decide
  · have h : PairRef.read (swap_pair (fun _ => 0) objStore pairXY pairYX) pairXY
        = (⟨5, 7⟩ : pair Nat Nat) := rfl
    rw [h]
    decide

/-- C20, as amended: for all pairs `p` and `q` in which neither first member is
the same object as a second member (as for all pairs that hold their members
by value), and which are one pair object whenever they share an address,
`p.swap(q)` leaves `p` equal to the old `q` and `q` equal to the old `p`,
member by member, whatever state a moved-from object is left in, and leaves
every other object alone; swapping twice restores the store, hence both
pairs.  Swapping a pair with itself leaves the store unchanged, for every
pair.  `mystl::swap(p, q)` on pairs is the same call. -/
theorem pair_swap_exchanges {τ : Type} (residue : τ → τ) (m : Nat → τ) (p q : PairRef)
    (hobj : p.addr = q.addr → p = q)
    (h1 : p.first ≠ p.second) (h2 : p.first ≠ q.second)
    (h3 : q.first ≠ p.second) (h4 : q.first ≠ q.second) :
    PairRef.read (pair.swap residue m p q) p = PairRef.read m q ∧
    PairRef.read (pair.swap residue m p q) q = PairRef.read m p ∧
    (PairRef.read (pair.swap residue m p q) p).first = (PairRef.read m q).first ∧
    (PairRef.read (pair.swap residue m p q) p).second = (PairRef.read m q).second ∧
    (PairRef.read (pair.swap residue m p q) q).first = (PairRef.read m p).first ∧
    (PairRef.read (pair.swap residue m p q) q).second = (PairRef.read m p).second ∧
    (∀ a, a ≠ p.first → a ≠ p.second → a ≠ q.first → a ≠ q.second →
      pair.swap residue m p q a = m a) ∧
    pair.swap residue (pair.swap residue m p q) p q = m ∧
    (∀ r : PairRef, pair.swap residue m r r = m) ∧
    swap_pair residue m p q = pair.swap residue m p q ∧
    PairRef.read (swap_pair residue m p q) p = PairRef.read m q ∧
    PairRef.read (swap_pair residue m p q) q = PairRef.read m p := by
  have hself : ∀ r : PairRef, pair.swap residue m r r = m := by
    intro r
    simp [pair.swap]
  have h1s : p.second ≠ p.first := fun h => h1 h.symm
  have h2s : q.second ≠ p.first := fun h => h2 h.symm
  have h3s : p.second ≠ q.first := fun h => h3 h.symm
  have h4s : q.second ≠ q.first := fun h => h4 h.symm
  by_cases hne : p.addr = q.addr
  · have hpq := hobj hne
    subst hpq
    have hs2 : pair.swap residue (pair.swap residue m p p) p p = m := by
      simp [pair.swap]
    refine ⟨?_, ?_, ?_, ?_, ?_, ?_, ?_, hs2, hself, rfl, ?_, ?_⟩ <;>
      simp [swap_pair, hself]
  · have happ := pair_swap_apply residue m p q hne h1 h2 h3 h4
    have hpf : pair.swap residue m p q p.first = m q.first := by
      rw [happ]
      by_cases h : p.first = q.first
      · simp [h]
      · simp [h]
    have hps : pair.swap residue m p q p.second = m q.second := by
      rw [happ]
      by_cases h : p.second = q.second
      · simp [h, h4s, h2s]
      · simp [h, h1s, h3s]
    have hqf : pair.swap residue m p q q.first = m p.first := by
      rw [happ]
      simp
    have hqs : pair.swap residue m p q q.second = m p.second := by
      rw [happ]
      simp [h2s, h4s]
    have hp : PairRef.read (pair.swap residue m p q) p = PairRef.read m q := by
      simp [PairRef.read, hpf, hps]
    have hq : PairRef.read (pair.swap residue m p q) q = PairRef.read m p := by
      simp [PairRef.read, hqf, hqs]
    have htwice : pair.swap residue (pair.swap residue m p q) p q = m := by
      funext a
      rw [pair_swap_apply residue _ p q hne h1 h2 h3 h4, hpf, hps, hqf, hqs]
      by_cases ha : a = q.first
      · simp [ha]
      · by_cases hb : a = p.first
        · subst hb
          simp [ha]
        · by_cases hc : a = q.second
          · subst hc
            simp [ha, hb]
          · by_cases hd : a = p.second
            · subst hd
              simp [ha, hb, hc]
            · simp [ha, hb, hc, hd, happ]
    refine ⟨hp, hq, by rw [hp], by rw [hp], by rw [hq], by rw [hq], ?_, htwice, hself, rfl,
      hp, hq⟩
    intro a ha hb hc hd
    rw [happ]
    simp [ha, hb, hc, hd]

/-- C20 at a concrete input: the pairs (1, 2) at address 10 and (3, 4) at
address 20, holding their members by value, with moved-from objects left
holding 0. -/
theorem pair_swap_exchanges_witness :
    (pairP.addr = pairQ.addr → pairP = pairQ) ∧
    pairP.first ≠ pairP.second ∧ pairP.first ≠ pairQ.second ∧
    pairQ.first ≠ pairP.second ∧ pairQ.first ≠ pairQ.second ∧
    PairRef.read objStore pairP = ⟨1, 2⟩ ∧ PairRef.read objStore pairQ = ⟨3, 4⟩ ∧
    PairRef.read (pair.swap (fun _ => 0) objStore pairP pairQ) pairP
      = PairRef.read objStore pairQ ∧
    PairRef.read (pair.swap (fun _ => 0) objStore pairP pairQ) pairQ
      = PairRef.read objStore pairP ∧
    pair.swap (fun _ => 0) (pair.swap (fun _ => 0) objStore pairP pairQ) pairP pairQ
      = objStore :=
  have h := pair_swap_exchanges (fun _ : Nat => 0) objStore pairP pairQ (by decide)
    (by decide) (by decide) (by decide) (by decide)
  ⟨by decide, by decide, by decide, by decide, by decide, rfl, rfl, h.1, h.2.1,
    h.2.2.2.2.2.2.2.1⟩

end mystl
